import Mathlib

/-!
Verification development for the rdwm tiling window manager.

The Rust sources are shallowly embedded: windows and X identifiers are
naturals, u32 arithmetic is modelled as checked arithmetic over Nat that
returns none exactly where the Rust operation would overflow or underflow
(a panic in a checked build), and every decision-layer operation is a pure
function from a state to a new state plus a list of Effect values.
-/

/-- Size bound of the u32 type used throughout the Rust sources. -/
def u32Lim : Nat := 4294967296

/-- Checked u32 addition; none models an overflow panic. -/
def checkedAdd (a b : Nat) : Option Nat :=
  if a + b < u32Lim then some (a + b) else none

/-- Checked u32 subtraction; none models an underflow panic. -/
def checkedSub (a b : Nat) : Option Nat :=
  if b ≤ a then some (a - b) else none

/-- Checked u32 multiplication; none models an overflow panic. -/
def checkedMul (a b : Nat) : Option Nat :=
  if a * b < u32Lim then some (a * b) else none

/-- Checked u32 division; none models the division-by-zero panic. -/
def checkedDiv (a b : Nat) : Option Nat :=
  if b = 0 then none else some (a / b)

/-- Embedding of the u32 iterator sum used by the layout code
(weights.iter().sum in horizontal_layout.rs line 13). -/
def u32Sum : List Nat → Nat → Option Nat
  | [], acc => some acc
  | w :: rest, acc => do u32Sum rest (← checkedAdd acc w)

/-- Embedding of the Rust cast from u32 to i32 (the x and y coordinates of a
generated rectangle are u32 values cast with as i32). -/
def u32ToI32 (n : Nat) : Int :=
  if n < 2147483648 then (n : Int) else (n : Int) - 4294967296

/-- Embedding of layout/mod.rs Rect: x and y are i32, w and h are u32. -/
structure Rect where
  x : Int
  y : Int
  w : Nat
  h : Nat
  deriving DecidableEq, Repr

/-- Embedding of layout/mod.rs pad (line 50): (dim - 2 * border).max(1) in u32
arithmetic, so the subtraction underflows whenever 2 * border exceeds dim. -/
def pad (dim border : Nat) : Option Nat := do
  let tb ← checkedMul 2 border
  let d ← checkedSub dim tb
  pure (max d 1)

/-- Loop body of HorizontalLayout::generate_layout: one cell per weight, with
the running cumulative weight threaded through (horizontal_layout.rs 18-33). -/
def HorizontalLayout.go (area_w total_weights partitions total_border window_gap inner_h : Nat) :
    List Nat → Nat → Option (List Rect)
  | [], _ => some []
  | weight :: rest, cumulative => do
    let aw ← checkedMul area_w weight
    let cell ← checkedDiv aw total_weights
    let inner_w ← pad cell total_border
    let cp ← checkedMul cumulative partitions
    let x ← checkedAdd cp window_gap
    let cumulative2 ← checkedAdd cumulative weight
    let restRects ← HorizontalLayout.go area_w total_weights partitions total_border window_gap
      inner_h rest cumulative2
    pure (⟨u32ToI32 x, u32ToI32 window_gap, inner_w, inner_h⟩ :: restRects)

/-- Embedding of HorizontalLayout::generate_layout (horizontal_layout.rs 5-36). -/
def HorizontalLayout.generate_layout (area : Rect) (weights : List Nat)
    (border_width window_gap : Nat) : Option (List Rect) := do
  let total_weights ← u32Sum weights 0
  let total_border ← checkedAdd border_width window_gap
  let inner_h ← pad area.h total_border
  let partitions ← checkedDiv area.w total_weights
  HorizontalLayout.go area.w total_weights partitions total_border window_gap inner_h weights 0

/-- Loop body of MasterLayout::generate_layout, with the enumerate index and
the prev rectangle threaded through (master_layout.rs 18-53). -/
def MasterLayout.go (total_border : Nat) :
    List Nat → Nat → Nat → Nat → Nat → Nat → Option (List Rect)
  | [], _, _, _, _, _ => some []
  | _ :: rest, i, prev_x, prev_y, prev_w, prev_h =>
    if rest.isEmpty then do
      let w ← pad prev_w total_border
      let h ← pad prev_h total_border
      pure [⟨u32ToI32 prev_x, u32ToI32 prev_y, w, h⟩]
    else if i % 2 = 0 then do
      let inner_w := prev_w / 2
      let w ← pad inner_w total_border
      let h ← pad prev_h total_border
      let prev_x2 ← checkedAdd prev_x inner_w
      let restRects ← MasterLayout.go total_border rest (i + 1) prev_x2 prev_y inner_w prev_h
      pure (⟨u32ToI32 prev_x, u32ToI32 prev_y, w, h⟩ :: restRects)
    else do
      let inner_h := prev_h / 2
      let w ← pad prev_w total_border
      let h ← pad inner_h total_border
      let prev_y2 ← checkedAdd prev_y inner_h
      let restRects ← MasterLayout.go total_border rest (i + 1) prev_x prev_y2 prev_w inner_h
      pure (⟨u32ToI32 prev_x, u32ToI32 prev_y, w, h⟩ :: restRects)

/-- Embedding of MasterLayout::generate_layout (master_layout.rs 5-57). -/
def MasterLayout.generate_layout (area : Rect) (weights : List Nat)
    (border_width window_gap : Nat) : Option (List Rect) := do
  let total_border ← checkedAdd border_width (window_gap / 2)
  let prev_h ← checkedSub area.h window_gap
  let prev_w ← checkedSub area.w window_gap
  MasterLayout.go total_border weights 0 window_gap window_gap prev_w prev_h

/-- Embedding of the Effect sum type (effect.rs): windows, atoms, pixels,
keycodes and modifier masks are all modelled as naturals. -/
inductive Effect where
  | map (window : Nat)
  | unmap (window : Nat)
  | configure (window : Nat) (x y : Int) (w h border : Nat)
  | configurePositionSize (window : Nat) (x y : Int) (w h : Nat)
  | focus (window : Nat)
  | raise (window : Nat)
  | setBorder (window pixel width : Nat)
  | setCardinal32 (window atom value : Nat)
  | setCardinal32List (window atom : Nat) (values : List Nat)
  | setAtomList (window atom : Nat) (values : List Nat)
  | setUtf8String (window atom : Nat) (value : String)
  | setWindowProperty (window atom : Nat) (values : List Nat)
  | killClient (window : Nat)
  | sendWmDelete (window : Nat)
  | grabKey (keycode modifiers grab_window : Nat)
  deriving DecidableEq, Repr

/-- True exactly on Map effects. -/
def Effect.is_map_effect : Effect → Bool
  | .map _ => true
  | _ => false

/-- True exactly on Unmap effects. -/
def Effect.is_unmap_effect : Effect → Bool
  | .unmap _ => true
  | _ => false

/-- Embedding of workspace.rs Client: a window handle, a weight (called size in
the source, default 1) and the mapped flag. -/
structure Client where
  window : Nat
  size : Nat
  is_mapped : Bool
  deriving DecidableEq, Repr

/-- Embedding of Client::new: weight 1, mapped true. -/
def Client.new (window : Nat) : Client :=
  ⟨window, 1, true⟩

/-- Embedding of workspace.rs Workspace: the IndexMap from window to Client is
modelled as an insertion-ordered list of clients keyed by their window field. -/
structure Workspace where
  clients : List Client
  focus : Option Nat
  fullscreen : Option Nat
  deriving DecidableEq, Repr

/-- Embedding of Workspace::default: empty client map, no focus, no fullscreen. -/
def Workspace.default : Workspace :=
  ⟨[], none, none⟩

/-- Update of the first client keyed by the given window, modelling
IndexMap::get_mut followed by a field write. -/
def updateClient : List Client → Nat → (Client → Client) → List Client
  | [], _, _ => []
  | c :: rest, w, f =>
    if c.window = w then f c :: rest else c :: updateClient rest w f

/-- Embedding of IndexMap::insert on the client map: replace in place when
the key is present, append otherwise. -/
def indexMapInsert (cs : List Client) (c : Client) : List Client :=
  if cs.any (fun x => x.window = c.window) then updateClient cs c.window (fun _ => c)
  else cs ++ [c]

/-- Embedding of IndexMap::contains_key on the client map. -/
def Workspace.contains_key (ws : Workspace) (window : Nat) : Bool :=
  ws.clients.any (fun c => c.window = window)

/-- Embedding of IndexMap::get on the client map. -/
def Workspace.get_client (ws : Workspace) (window : Nat) : Option Client :=
  ws.clients.find? (fun c => c.window = window)

/-- Embedding of Workspace::is_window_mapped (workspace.rs 90). -/
def Workspace.is_window_mapped (ws : Workspace) (window : Nat) : Bool :=
  match ws.get_client window with
  | some c => c.is_mapped
  | none => false

/-- Embedding of Workspace::set_focus (workspace.rs 94): the Bool reports
whether the focus change was accepted. -/
def Workspace.set_focus (ws : Workspace) (window : Nat) : Workspace × Bool :=
  if ws.contains_key window && ws.is_window_mapped window then
    ({ ws with focus := some window }, true)
  else (ws, false)

/-- Embedding of Workspace::is_focus_valid (workspace.rs 157): an absent focus
counts as valid, and mappedness is not inspected. -/
def Workspace.is_focus_valid (ws : Workspace) : Bool :=
  match ws.focus with
  | some win => ws.contains_key win
  | none => true

/-- Embedding of Workspace::update_focus (workspace.rs 128). -/
def Workspace.update_focus (ws : Workspace) : Workspace :=
  let ws1 :=
    match ws.fullscreen with
    | some fs =>
      let p := ws.set_focus fs
      if p.2 then p.1 else { p.1 with fullscreen := none }
    | none => ws
  if ws1.clients.isEmpty then { ws1 with focus := none }
  else if ws1.is_focus_valid then ws1
  else { ws1 with focus := (ws1.clients.find? Client.is_mapped).map Client.window }

/-- Embedding of Workspace::update_focus_if_invalid (workspace.rs 149). -/
def Workspace.update_focus_if_invalid (ws : Workspace) (candidate_window : Nat) : Workspace :=
  (if !ws.is_focus_valid then (ws.set_focus candidate_window).1 else ws).update_focus

/-- Embedding of Workspace::set_client_mapped (workspace.rs 83). -/
def Workspace.set_client_mapped (ws : Workspace) (window : Nat) (mapped : Bool) : Workspace :=
  ({ ws with clients := updateClient ws.clients window (fun c => { c with is_mapped := mapped }) }).update_focus

/-- Embedding of Workspace::push_window (workspace.rs 102). -/
def Workspace.push_window (ws : Workspace) (window : Nat) : Workspace :=
  let ws1 := { ws with clients := indexMapInsert ws.clients (Client.new window) }
  let ws2 := if ws1.focus.isNone then (ws1.set_focus window).1 else ws1
  ws2.update_focus

/-- Embedding of Workspace::index_of_window (workspace.rs 179). -/
def Workspace.index_of_window (ws : Workspace) (window : Nat) : Option Nat :=
  ws.clients.findIdx? (fun c => c.window = window)

/-- Embedding of Workspace::get_window_at_index (workspace.rs 183). -/
def Workspace.get_window_at_index (ws : Workspace) (index : Nat) : Option Nat :=
  (ws.clients.get? index).map Client.window

/-- Embedding of Workspace::number_of_clients (workspace.rs 52). -/
def Workspace.number_of_clients (ws : Workspace) : Nat :=
  ws.clients.length

/-- Embedding of Workspace::remove_client (workspace.rs 110): shift-remove from
the ordered map, then repair focus around the removal index. -/
def Workspace.remove_client (ws : Workspace) (window : Nat) : Workspace × Option Client :=
  let idx_to_remove := ws.index_of_window window
  let removed := ws.get_client window
  let ws1 := { ws with clients := ws.clients.eraseP (fun c => c.window = window) }
  match idx_to_remove with
  | none => (ws1, removed)
  | some index =>
    let new_index := if index < ws1.number_of_clients then index else ws1.number_of_clients - 1
    match ws1.get_window_at_index new_index with
    | some candidate => (ws1.update_focus_if_invalid candidate, removed)
    | none => (ws1.update_focus, removed)

/-- Embedding of Workspace::removed_focused_window (workspace.rs 163). -/
def Workspace.removed_focused_window (ws : Workspace) : Workspace × Option Nat :=
  match ws.focus with
  | some window =>
    let p := ws.remove_client window
    (p.1, p.2.map Client.window)
  | none => (ws, none)

/-- Embedding of Workspace::set_fullscreen (workspace.rs 59). -/
def Workspace.set_fullscreen (ws : Workspace) (window : Nat) : Workspace :=
  if ws.contains_key window then ({ ws with fullscreen := some window }).update_focus
  else ws

/-- Embedding of Workspace::clear_fullscreen (workspace.rs 66). -/
def Workspace.clear_fullscreen (ws : Workspace) : Workspace :=
  ({ ws with fullscreen := none }).update_focus

/-- Embedding of Workspace::iter_windows (workspace.rs 171). -/
def Workspace.iter_windows (ws : Workspace) : List Nat :=
  ws.clients.map Client.window

/-- Embedding of config.rs NUM_WORKSPACES. -/
def NUM_WORKSPACES : Nat := 10

/-- Embedding of state.rs ScreenConfig. -/
structure ScreenConfig where
  width : Nat
  height : Nat
  focused_border_pixel : Nat
  normal_border_pixel : Nat
  deriving DecidableEq, Repr

/-- Embedding of layout/mod.rs LayoutType, generated by the define_layouts
macro in registration order. -/
inductive LayoutType where
  | HorizontalLayout
  | MasterLayout
  deriving DecidableEq, Repr

/-- Dispatch of Layout::generate_layout through the current strategy of the
LayoutManager. -/
def LayoutType.generate (t : LayoutType) (area : Rect) (weights : List Nat)
    (border_width window_gap : Nat) : Option (List Rect) :=
  match t with
  | .HorizontalLayout => HorizontalLayout.generate_layout area weights border_width window_gap
  | .MasterLayout => MasterLayout.generate_layout area weights border_width window_gap

/-- Embedding of state.rs State: the LayoutManager is represented by its
current LayoutType (the layout table itself is the fixed two-entry map), the
workspace array by a list of length NUM_WORKSPACES, and the window-to-workspace
HashMap by an association list. -/
structure State where
  current_layout : LayoutType
  workspaces : List Workspace
  window_to_workspace : List (Nat × Nat)
  current_workspace : Nat
  screen : ScreenConfig
  border_width : Nat
  window_gap : Nat
  dock_windows : List Nat
  dock_height : Nat
  deriving DecidableEq, Repr

/-- Insert for the window-to-workspace HashMap: replace the binding when the
key is present, append otherwise. -/
def hashInsert (m : List (Nat × Nat)) (key value : Nat) : List (Nat × Nat) :=
  if m.any (fun p => p.1 = key) then m.map (fun p => if p.1 = key then (key, value) else p)
  else m ++ [(key, value)]

/-- Lookup for the window-to-workspace HashMap, modelling
State::window_workspace (state.rs 72). -/
def hashLookup (m : List (Nat × Nat)) (key : Nat) : Option Nat :=
  (m.find? (fun p => p.1 = key)).map (fun p => p.2)

/-- Embedding of State::new (state.rs 39): all workspaces empty, current
workspace 0, and the LayoutManager initialised to the first registered layout. -/
def State.new (screen : ScreenConfig) (border_width window_gap dock_height : Nat) : State :=
  { current_layout := .HorizontalLayout
    workspaces := List.replicate NUM_WORKSPACES Workspace.default
    window_to_workspace := []
    current_workspace := 0
    screen := screen
    border_width := border_width
    window_gap := window_gap
    dock_windows := []
    dock_height := dock_height }

/-- Embedding of State::get_workspace (state.rs 115). -/
def State.get_workspace (s : State) (workspace_id : Nat) : Option Workspace :=
  s.workspaces.get? workspace_id

/-- Embedding of State::current_workspace() (state.rs 109); the expect on an
out-of-range index is modelled by the default workspace. -/
def State.current_ws (s : State) : Workspace :=
  (s.workspaces.get? s.current_workspace).getD Workspace.default

/-- Write-back of the current workspace through current_workspace_mut. -/
def State.setCurrentWs (s : State) (ws : Workspace) : State :=
  { s with workspaces := s.workspaces.set s.current_workspace ws }

/-- Embedding of State::usable_screen_height (state.rs 65); saturating_sub is
natural subtraction. -/
def State.usable_screen_height (s : State) : Nat :=
  if !s.dock_windows.isEmpty then s.screen.height - s.dock_height
  else s.screen.height

/-- Tiling branch of State::configure_windows (state.rs 164-197): mapped
clients in insertion order are zipped with the generated rectangles. -/
def State.tiling_effects (s : State) (ws : Workspace) : Option (List Effect) :=
  let clients := ws.clients.filter Client.is_mapped
  if clients.isEmpty then some []
  else do
    let weights := clients.map Client.size
    let area : Rect := ⟨0, 0, s.screen.width, s.usable_screen_height⟩
    let layout ← s.current_layout.generate area weights s.border_width s.window_gap
    pure ((clients.zip layout).map (fun p =>
      Effect.configure p.1.window p.2.x p.2.y p.2.w p.2.h s.border_width))

/-- Embedding of State::configure_windows (state.rs 146): a mapped fullscreen
window short-circuits to a whole-screen Configure with border 0 plus a Raise. -/
def State.configure_windows (s : State) (workspace_id : Nat) : Option (List Effect) :=
  match s.get_workspace workspace_id with
  | none => some []
  | some ws =>
    match ws.fullscreen with
    | some fullscreen =>
      if ws.is_window_mapped fullscreen then
        some [Effect.configure fullscreen 0 0 s.screen.width s.screen.height 0,
          Effect.raise fullscreen]
      else s.tiling_effects ws
    | none => s.tiling_effects ws

/-- Embedding of State::configure_dock_windows (state.rs 203). -/
def State.configure_dock_windows (s : State) : List Effect :=
  s.dock_windows.map (fun window =>
    Effect.configurePositionSize window 0 (u32ToI32 s.screen.height - u32ToI32 s.dock_height)
      s.screen.width s.dock_height)

/-- Embedding of State::set_focus (state.rs 220): a no-op while a mapped
fullscreen window is present, otherwise border, focus and raise effects. -/
def State.set_focus (s : State) (window : Nat) : State × List Effect :=
  let cur := s.current_ws
  if (match cur.fullscreen with
      | some fs => cur.is_window_mapped fs
      | none => false) then (s, [])
  else
    let fullscreen_window := cur.fullscreen
    let previous_focus := cur.focus
    let p := cur.set_focus window
    let s1 := s.setCurrentWs p.1
    if p.2 then
      let effs1 :=
        match previous_focus with
        | some previous_window =>
          [Effect.setBorder previous_window s.screen.normal_border_pixel
            (if fullscreen_window = some previous_window then 0 else s.border_width)]
        | none => []
      let effs2 := [Effect.setBorder window s.screen.focused_border_pixel
          (if fullscreen_window = some window then 0 else s.border_width),
        Effect.focus window]
      let effs3 := if fullscreen_window = some window then [Effect.raise window] else []
      (s1, effs1 ++ effs2 ++ effs3)
    else (s1, [])

/-- Embedding of the focus-reassertion block that go_to_workspace and
send_to_workspace share (state.rs 351 and 381): when the current workspace has
a focused window, set_focus is invoked on it. -/
def State.reassert_focus (s : State) : State × List Effect :=
  match s.current_ws.focus with
  | some focus => s.set_focus focus
  | none => (s, [])

/-- Embedding of State::toggle_fullscreen (state.rs 261); none models a panic
inside the relayout. -/
def State.toggle_fullscreen (s : State) : Option (State × List Effect) :=
  match s.current_ws.focus with
  | none => some (s, [])
  | some focused =>
    let prev_fullscreen := s.current_ws.fullscreen
    let toggle_off := prev_fullscreen = some focused
    let s1 :=
      if toggle_off then s.setCurrentWs s.current_ws.clear_fullscreen
      else s.setCurrentWs (s.current_ws.set_fullscreen focused)
    let effs0 := if toggle_off then [] else [Effect.raise focused]
    do
      let cfg ← s1.configure_windows s1.current_workspace
      let p := s1.set_focus focused
      pure (p.1, effs0 ++ cfg ++ p.2)

/-- Embedding of State::go_to_workspace (state.rs 305). -/
def State.go_to_workspace (s : State) (new_workspace_id : Nat) : Option (State × List Effect) :=
  if s.current_workspace = new_workspace_id ∨ NUM_WORKSPACES ≤ new_workspace_id then some (s, [])
  else
    let old_workspace_id := s.current_workspace
    let old_ws := (s.workspaces.get? old_workspace_id).getD Workspace.default
    let old_windows := old_ws.iter_windows
    let old_ws2 := old_windows.foldl (fun ws w => ws.set_client_mapped w false) old_ws
    let s1 := { s with workspaces := s.workspaces.set old_workspace_id old_ws2 }
    let effs1 := old_windows.map Effect.unmap
    let s2 := { s1 with current_workspace := new_workspace_id }
    let new_windows := s2.current_ws.iter_windows
    let new_ws2 := new_windows.foldl (fun ws w => ws.set_client_mapped w true) s2.current_ws
    let s3 := s2.setCurrentWs new_ws2
    let effs2 := new_windows.map Effect.map
    do
      let cfg ← s3.configure_windows s3.current_workspace
      let p := s3.reassert_focus
      pure (p.1, effs1 ++ effs2 ++ cfg ++ p.2)

/-- Embedding of State::send_to_workspace (state.rs 358). -/
def State.send_to_workspace (s : State) (workspace_id : Nat) : Option (State × List Effect) :=
  if NUM_WORKSPACES ≤ workspace_id ∨ workspace_id = s.current_workspace then some (s, [])
  else
    let q := s.current_ws.removed_focused_window
    let s1 := s.setCurrentWs q.1
    match q.2 with
    | none => some (s1, [])
    | some window_to_send =>
      match s1.workspaces.get? workspace_id with
      | none => some (s1, [])
      | some new_workspace =>
        let nw1 := new_workspace.push_window window_to_send
        let nw2 := nw1.set_client_mapped window_to_send false
        let s2 := { s1 with
          workspaces := s1.workspaces.set workspace_id nw2,
          window_to_workspace := hashInsert s1.window_to_workspace window_to_send workspace_id }
        do
          let cfg ← s2.configure_windows s2.current_workspace
          let p := s2.reassert_focus
          pure (p.1, [Effect.unmap window_to_send,
            Effect.setBorder window_to_send s.screen.normal_border_pixel s.border_width] ++
            cfg ++ p.2)

/-- Embedding of State::decrease_window_gap (state.rs 411); saturating_sub is
natural subtraction. -/
def State.decrease_window_gap (s : State) (decrement : Nat) : Option (State × List Effect) :=
  let new_gap := s.window_gap - decrement
  if new_gap = s.window_gap then some (s, [])
  else
    let s1 := { s with window_gap := new_gap }
    do
      let cfg ← s1.configure_windows s1.current_workspace
      pure (s1, cfg)

/-- Embedding of State::handle_map_request_dock (state.rs 459). -/
def State.handle_map_request_dock (s : State) (window : Nat) : Option (State × List Effect) :=
  let s1 :=
    if s.dock_windows.any (fun w => w = window) then s
    else { s with dock_windows := s.dock_windows ++ [window] }
  do
    let cfg ← s1.configure_windows s1.current_workspace
    pure (s1, Effect.map window :: (s1.configure_dock_windows ++ cfg))

/-- Embedding of State::handle_map_request_managed (state.rs 476): only the
current workspace is consulted before inserting the window. -/
def State.handle_map_request_managed (s : State) (window : Nat) : Option (State × List Effect) :=
  let s1 :=
    match s.current_ws.get_client window with
    | some _ =>
      s.setCurrentWs { s.current_ws with
        clients := updateClient s.current_ws.clients window (fun c => { c with is_mapped := true }) }
    | none =>
      let t := s.setCurrentWs (s.current_ws.push_window window)
      { t with window_to_workspace := hashInsert t.window_to_workspace window t.current_workspace }
  if (match s1.current_ws.fullscreen with
      | some fs => s1.current_ws.is_window_mapped fs
      | none => false) then do
    let cfg ← s1.configure_windows s1.current_workspace
    pure (s1, Effect.map window :: cfg)
  else do
    let p := s1.set_focus window
    let cfg ← p.1.configure_windows p.1.current_workspace
    pure (p.1, Effect.map window :: (p.2 ++ cfg))

/-- Embedding of x11.rs WindowType. -/
inductive WindowType where
  | Dock
  | Managed
  | Unmanaged
  deriving DecidableEq, Repr

/-- Embedding of State::on_map_request (state.rs 451). -/
def State.on_map_request (s : State) (window : Nat) : WindowType → Option (State × List Effect)
  | .Unmanaged => some (s, [Effect.map window])
  | .Dock => s.handle_map_request_dock window
  | .Managed => s.handle_map_request_managed window

/-- Embedding of X11::supports_wm_delete (x11.rs 576), with the GetProperty
round-trip supplied as an input: the reply is the atom list of WM_PROTOCOLS,
or an error. -/
def supports_wm_delete (wm_delete_window : Nat) (reply : Except Unit (List Nat)) :
    Except Unit Bool :=
  match reply with
  | .error e => .error e
  | .ok atoms_list => .ok (atoms_list.contains wm_delete_window)

/-- Embedding of WindowManager::close_window (rdwm.rs 452), with the protocol
query outcome supplied as an input. -/
def close_window (window : Nat) (query : Except Unit Bool) : List Effect :=
  match query with
  | .ok true => [Effect.sendWmDelete window]
  | .ok false => [Effect.killClient window]
  | .error _ => [Effect.killClient window]

/-- Concrete state with the default configuration and no clients, used to
instantiate theorems. -/
def demoState : State :=
  State.new ⟨800, 600, 0, 1⟩ 1 0 30

/-- Concrete state whose current workspace holds two mapped clients, focus on
window 1 and no fullscreen mark. -/
def c2State : State :=
  { State.new ⟨800, 600, 0, 1⟩ 1 0 30 with
    workspaces :=
      (⟨[⟨1, 1, true⟩, ⟨2, 1, true⟩], some 1, none⟩ : Workspace) ::
        List.replicate 9 Workspace.default }

/-- Concrete workspace whose focus rests on an existing but unmapped client
while a mapped client is available. -/
def c3CexWs : Workspace :=
  ((Workspace.default.push_window 1).push_window 2).set_client_mapped 1 false

/-- Concrete workspace whose focus dangles on a window that is no client. -/
def c3WitWs : Workspace :=
  ⟨[⟨1, 1, true⟩], some 9, none⟩

/-- Concrete state with one mapped client on workspace 0 and one unmapped
client on workspace 1. -/
def c6State : State :=
  { State.new ⟨800, 600, 0, 1⟩ 1 0 30 with
    workspaces :=
      [(⟨[⟨1, 1, true⟩], some 1, none⟩ : Workspace),
        ⟨[⟨2, 1, false⟩], some 2, none⟩] ++ List.replicate 8 Workspace.default }

/-- Concrete state whose current workspace has window 1 as a mapped fullscreen
and focused client. -/
def c7State : State :=
  { State.new ⟨800, 600, 0, 1⟩ 1 0 30 with
    workspaces :=
      (⟨[⟨1, 1, true⟩], some 1, some 1⟩ : Workspace) :: List.replicate 9 Workspace.default }

/-- C9: go_to_workspace with the current index, or with an out-of-range index,
returns the empty effect vector and leaves the state unchanged. -/
theorem go_to_workspace_noop (s : State) (i : Nat)
    (h : i = s.current_workspace ∨ NUM_WORKSPACES ≤ i) :
    s.go_to_workspace i = some (s, []) := by
  unfold State.go_to_workspace
  rcases h with h | h
  · simp [h]
  · simp [h]

/-- Witness for go_to_workspace_noop at the demo state and its own index. -/
theorem go_to_workspace_noop_witness :
    ((0 : Nat) = demoState.current_workspace ∨ NUM_WORKSPACES ≤ 0) ∧
      demoState.go_to_workspace 0 = some (demoState, []) :=
  ⟨Or.inl (by decide), go_to_workspace_noop demoState 0 (Or.inl (by decide))⟩

/-- C10: toggle_fullscreen on a workspace without a focused window returns the
empty effect vector and leaves every component of the state unchanged. -/
theorem toggle_fullscreen_no_focus_noop (s : State) (h : s.current_ws.focus = none) :
    s.toggle_fullscreen = some (s, []) := by
  unfold State.toggle_fullscreen
  rw [h]

/-- Witness for toggle_fullscreen_no_focus_noop at the demo state. -/
theorem toggle_fullscreen_no_focus_noop_witness :
    demoState.current_ws.focus = none ∧ demoState.toggle_fullscreen = some (demoState, []) :=
  ⟨by decide, toggle_fullscreen_no_focus_noop demoState (by decide)⟩

/-- Counterexample to C5: a state with window gap 5 shows that
decrease_window_gap 5 (so k equal to the gap, hence k at least the gap) does
change the gap, namely to 0, while the claim requires it to stay unchanged. -/
theorem decrease_gap_changes_cex :
    (State.new ⟨800, 600, 0, 1⟩ 1 5 30).window_gap ≤ 5 ∧
      ((State.new ⟨800, 600, 0, 1⟩ 1 5 30).decrease_window_gap 5).map
          (fun p => p.1.window_gap) = some 0 ∧
      (State.new ⟨800, 600, 0, 1⟩ 1 5 30).window_gap ≠ 0 := by decide

/-- C5 as amended: with k at least the gap, decrease_window_gap k drives the
gap to 0, and it is a no-op returning the empty vector exactly when the gap is
already 0 (the only case where the saturating subtraction changes nothing). -/
theorem decrease_gap_saturation (s : State) (k : Nat) (h : s.window_gap ≤ k) :
    (s.window_gap = 0 → s.decrease_window_gap k = some (s, [])) ∧
      (∀ p, s.decrease_window_gap k = some p → p.1.window_gap = 0) := by
  have hz : s.window_gap - k = 0 := Nat.sub_eq_zero_of_le h
  constructor
  · intro h0
    unfold State.decrease_window_gap
    simp [hz, h0]
  · intro p hp
    unfold State.decrease_window_gap at hp
    rw [hz] at hp
    by_cases h0 : (0 : Nat) = s.window_gap
    · rw [if_pos h0] at hp
      cases hp
      exact h0.symm
    · rw [if_neg h0] at hp
      obtain ⟨cfg, hcfg, hp2⟩ := Option.bind_eq_some.1 hp
      cases hp2
      rfl

/-- Witness for decrease_gap_saturation at the demo state with gap 0. -/
theorem decrease_gap_saturation_witness :
    demoState.window_gap ≤ 3 ∧
      ((demoState.window_gap = 0 → demoState.decrease_window_gap 3 = some (demoState, [])) ∧
        (∀ p, demoState.decrease_window_gap 3 = some p → p.1.window_gap = 0)) :=
  ⟨by decide, decrease_gap_saturation demoState 3 (by decide)⟩

/-- C8: close_window issues SendWmDelete when the WM_PROTOCOLS reply lists
WM_DELETE_WINDOW, KillClient when it does not, and falls back to KillClient
when the query itself fails. -/
theorem close_window_icccm (window wm_delete : Nat) (reply : Except Unit (List Nat)) :
    (∀ atoms_list, reply = .ok atoms_list → wm_delete ∈ atoms_list →
      close_window window (supports_wm_delete wm_delete reply) = [Effect.sendWmDelete window]) ∧
    (∀ atoms_list, reply = .ok atoms_list → wm_delete ∉ atoms_list →
      close_window window (supports_wm_delete wm_delete reply) = [Effect.killClient window]) ∧
    (∀ e, reply = .error e →
      close_window window (supports_wm_delete wm_delete reply) = [Effect.killClient window]) := by
  refine ⟨?_, ?_, ?_⟩
  · intro ats h hmem
    subst h
    simp [supports_wm_delete, close_window, hmem]
  · intro ats h hmem
    subst h
    simp [supports_wm_delete, close_window, hmem]
  · intro e h
    subst h
    simp [supports_wm_delete, close_window]

/-- Witness for close_window_icccm at all three concrete query outcomes. -/
theorem close_window_icccm_witness :
    close_window 1 (supports_wm_delete 2 (.ok [2])) = [Effect.sendWmDelete 1] ∧
      close_window 1 (supports_wm_delete 2 (.ok [3])) = [Effect.killClient 1] ∧
      close_window 1 (supports_wm_delete 2 (.error ())) = [Effect.killClient 1] :=
  ⟨(close_window_icccm 1 2 (.ok [2])).1 [2] rfl (by decide),
    (close_window_icccm 1 2 (.ok [3])).2.1 [3] rfl (by decide),
    (close_window_icccm 1 2 (.error ())).2.2 () rfl⟩

/-- Counterexample to C1: with weights [1, 100], border 10, gap 10 and a 42 by
42 area (so both dimensions reach the bound 2 * (border + gap) + 2 = 42), the
first cell is 42 * 1 / 101 = 0 and the u32 subtraction cell - 2 * (border +
gap) underflows, so the horizontal layout fails instead of returning two
rectangles. -/
theorem horizontal_layout_underflow_cex :
    ((1 : Nat) ≤ 1 ∧ (1 : Nat) ≤ 100) ∧ (10 : Nat) ≤ 10 ∧ (10 : Nat) ≤ 10 ∧
      2 * (10 + 10) + 2 ≤ (42 : Nat) ∧ 2 * (10 + 10) + 2 ≤ (42 : Nat) ∧
      HorizontalLayout.generate_layout ⟨0, 0, 42, 42⟩ [1, 100] 10 10 = none := by decide

/-- Counterexample to C2: on a workspace with two mapped clients, no
fullscreen and focus on window 1, toggle_fullscreen emits no Focus effect at
all, because set_focus is a no-op once the mapped fullscreen mark is set. -/
theorem toggle_fullscreen_no_focus_effect_cex :
    c2State.current_ws.fullscreen = none ∧
      c2State.current_ws.focus = some 1 ∧
      2 ≤ (c2State.current_ws.clients.filter Client.is_mapped).length ∧
      (c2State.toggle_fullscreen.map (fun p => p.2.contains (Effect.focus 1))) = some false := by
  decide

/-- Counterexample to C3: after set_client_mapped, a focus resting on an
existing but unmapped client (window 1) is kept, although a mapped client
(window 2, the first mapped client in insertion order) exists; re-running
update_focus keeps it as well, because is_focus_valid only checks existence. -/
theorem update_focus_keeps_unmapped_cex :
    c3CexWs.fullscreen = none ∧
      c3CexWs.clients.map Client.window = [1, 2] ∧
      c3CexWs.is_window_mapped 1 = false ∧
      c3CexWs.is_window_mapped 2 = true ∧
      (c3CexWs.clients.find? Client.is_mapped).map Client.window = some 2 ∧
      c3CexWs.focus = some 1 ∧
      c3CexWs.update_focus.focus = some 1 := by decide

/-- C4: the reverse-index bijectivity invariant is broken by the code. After
on_map_request(5, Managed) on workspace 0, send_to_workspace(1), and a second
on_map_request(5, Managed) while workspace 0 is current,
handle_map_request_managed consults only the current workspace, so window 5
becomes a client of both workspace 0 and workspace 1 while the reverse index
names workspace 0. -/
theorem reverse_index_duplicate_after_remap :
    (do
      let p1 ← (State.new ⟨800, 600, 0, 1⟩ 1 0 30).on_map_request 5 WindowType.Managed
      let p2 ← p1.1.send_to_workspace 1
      let p3 ← p2.1.on_map_request 5 WindowType.Managed
      pure (((p3.1.workspaces.get? 0).getD Workspace.default).contains_key 5,
        ((p3.1.workspaces.get? 1).getD Workspace.default).contains_key 5,
        hashLookup p3.1.window_to_workspace 5))
      = some (true, true, some 0) := by decide

/-- Checked addition succeeds below the u32 bound. -/
theorem checkedAdd_eq_some (a b : Nat) (h : a + b < u32Lim) : checkedAdd a b = some (a + b) := by
  unfold checkedAdd
  rw [if_pos h]

/-- Checked subtraction succeeds when no underflow occurs. -/
theorem checkedSub_eq_some (a b : Nat) (h : b ≤ a) : checkedSub a b = some (a - b) := by
  unfold checkedSub
  rw [if_pos h]

/-- Checked multiplication succeeds below the u32 bound. -/
theorem checkedMul_eq_some (a b : Nat) (h : a * b < u32Lim) : checkedMul a b = some (a * b) := by
  unfold checkedMul
  rw [if_pos h]

/-- Checked division succeeds on a nonzero divisor. -/
theorem checkedDiv_eq_some (a b : Nat) (h : b ≠ 0) : checkedDiv a b = some (a / b) := by
  unfold checkedDiv
  rw [if_neg h]

/-- Pad succeeds when the padded dimension does not underflow. -/
theorem pad_eq_some (dim border : Nat) (h1 : 2 * border < u32Lim) (h2 : 2 * border ≤ dim) :
    pad dim border = some (max (dim - 2 * border) 1) := by
  simp [pad, checkedMul_eq_some 2 border h1, checkedSub_eq_some dim (2 * border) h2]

/-- The u32 iterator sum succeeds and agrees with the list sum when the total
stays below the u32 bound. -/
theorem u32Sum_eq (l : List Nat) : ∀ acc, acc + l.sum < u32Lim → u32Sum l acc = some (acc + l.sum) := by
  induction l with
  | nil =>
    intro acc h
    simp [u32Sum]
  | cons w rest ih =>
    intro acc h
    rw [List.sum_cons] at h
    have h1 : acc + w < u32Lim := by omega
    have h2 : acc + w + rest.sum < u32Lim := by omega
    simp only [u32Sum, checkedAdd_eq_some acc w h1, Option.bind_eq_bind, Option.some_bind,
      List.sum_cons]
    rw [ih (acc + w) h2]
    congr 1
    omega

/-- Totality of the horizontal-layout loop under no-overflow and
no-underflow side conditions. -/
theorem horizontal_go_total (area_w tw partitions total_border window_gap inner_h : Nat)
    (htw0 : tw ≠ 0) (htwlim : tw < u32Lim) (hih : 1 ≤ inner_h)
    (htb : 2 * total_border < u32Lim) (hxlim : area_w + window_gap < u32Lim)
    (hpart : partitions = area_w / tw) :
    ∀ (ws : List Nat) (c : Nat),
      c + ws.sum ≤ tw →
      (∀ w ∈ ws, area_w * w < u32Lim) →
      (∀ w ∈ ws, 2 * total_border ≤ area_w * w / tw) →
      ∃ rects,
        HorizontalLayout.go area_w tw partitions total_border window_gap inner_h ws c
            = some rects ∧
          rects.length = ws.length ∧ ∀ r ∈ rects, 1 ≤ r.w ∧ 1 ≤ r.h := by
  intro ws
  induction ws with
  | nil =>
    intro c _ _ _
    exact ⟨[], by simp [HorizontalLayout.go], rfl, by simp⟩
  | cons w rest ih =>
    intro c hc hm hcell
    rw [List.sum_cons] at hc
    have hmw : area_w * w < u32Lim := hm w (List.mem_cons_self _ _)
    have hcellw : 2 * total_border ≤ area_w * w / tw := hcell w (List.mem_cons_self _ _)
    have hcw : c + w < u32Lim := by omega
    have hcpb : c * partitions ≤ area_w := by
      subst hpart
      calc c * (area_w / tw) ≤ tw * (area_w / tw) := Nat.mul_le_mul (by omega) (le_refl _)
        _ = (area_w / tw) * tw := Nat.mul_comm _ _
        _ ≤ area_w := Nat.div_mul_le_self area_w tw
    have hcp : c * partitions < u32Lim := by omega
    have hx2 : c * partitions + window_gap < u32Lim := by omega
    obtain ⟨rects, hgo, hlen, hall⟩ :=
      ih (c + w) (by omega) (fun x hx => hm x (List.mem_cons_of_mem _ hx))
        (fun x hx => hcell x (List.mem_cons_of_mem _ hx))
    refine ⟨⟨u32ToI32 (c * partitions + window_gap), u32ToI32 window_gap,
        max (area_w * w / tw - 2 * total_border) 1, inner_h⟩ :: rects, ?_, by simp [hlen], ?_⟩
    · simp [HorizontalLayout.go, checkedMul_eq_some area_w w hmw,
        checkedDiv_eq_some (area_w * w) tw htw0, pad_eq_some (area_w * w / tw) total_border htb hcellw,
        checkedMul_eq_some c partitions hcp, checkedAdd_eq_some (c * partitions) window_gap hx2,
        checkedAdd_eq_some c w hcw, hgo]
    · intro r hr
      rcases List.mem_cons.1 hr with h | h
      · subst h
        exact ⟨le_max_right _ _, hih⟩
      · exact hall r h

/-- C1 as amended: under the claim's hypotheses plus the side conditions that
every cell width area.w * w / sum is at least 2 * (border + gap) and that the
u32 arithmetic stays in range, the horizontal layout returns exactly one
rectangle per weight, each with width and height at least 1. -/
theorem horizontal_layout_totality_amended (area : Rect) (weights : List Nat)
    (border_width window_gap : Nat)
    (hne : weights ≠ [])
    (hpos : ∀ w ∈ weights, 1 ≤ w)
    (hb : border_width ≤ 10) (hg : window_gap ≤ 10)
    (hw2 : 2 * (border_width + window_gap) + 2 ≤ area.w)
    (hh2 : 2 * (border_width + window_gap) + 2 ≤ area.h)
    (hsum : weights.sum < u32Lim)
    (hmul : ∀ w ∈ weights, area.w * w < u32Lim)
    (hx : area.w + window_gap < u32Lim)
    (hcell : ∀ w ∈ weights, 2 * (border_width + window_gap) ≤ area.w * w / weights.sum) :
    ∃ rects,
      HorizontalLayout.generate_layout area weights border_width window_gap = some rects ∧
        rects.length = weights.length ∧ ∀ r ∈ rects, 1 ≤ r.w ∧ 1 ≤ r.h := by
  have htw0 : weights.sum ≠ 0 := by
    cases weights with
    | nil => exact absurd rfl hne
    | cons w rest =>
      have := hpos w (List.mem_cons_self _ _)
      rw [List.sum_cons]
      omega
  have htb_add : border_width + window_gap < u32Lim := by
    unfold u32Lim
    omega
  have htb2 : 2 * (border_width + window_gap) < u32Lim := by
    unfold u32Lim
    omega
  obtain ⟨rects, hgo, hlen, hall⟩ :=
    horizontal_go_total area.w weights.sum (area.w / weights.sum) (border_width + window_gap)
      window_gap (max (area.h - 2 * (border_width + window_gap)) 1) htw0 hsum (le_max_right _ _)
      htb2 hx rfl weights 0 (by omega) hmul hcell
  refine ⟨rects, ?_, hlen, hall⟩
  simp [HorizontalLayout.generate_layout, u32Sum_eq weights 0 (by omega),
    checkedAdd_eq_some border_width window_gap htb_add,
    pad_eq_some area.h (border_width + window_gap) htb2 (by omega),
    checkedDiv_eq_some area.w weights.sum htw0, hgo]

/-- Witness for horizontal_layout_totality_amended on two equal weights in a
100 by 100 area with border 1 and gap 1. -/
theorem horizontal_layout_totality_witness :
    (([1, 1] : List Nat) ≠ [] ∧ (∀ w ∈ ([1, 1] : List Nat), 1 ≤ w) ∧ (1 : Nat) ≤ 10 ∧
      (1 : Nat) ≤ 10 ∧ 2 * (1 + 1) + 2 ≤ (100 : Nat) ∧ 2 * (1 + 1) + 2 ≤ (100 : Nat) ∧
      ([1, 1] : List Nat).sum < u32Lim ∧ (∀ w ∈ ([1, 1] : List Nat), 100 * w < u32Lim) ∧
      (100 : Nat) + 1 < u32Lim ∧
      (∀ w ∈ ([1, 1] : List Nat), 2 * (1 + 1) ≤ 100 * w / ([1, 1] : List Nat).sum)) ∧
    ∃ rects,
      HorizontalLayout.generate_layout ⟨0, 0, 100, 100⟩ [1, 1] 1 1 = some rects ∧
        rects.length = ([1, 1] : List Nat).length ∧ ∀ r ∈ rects, 1 ≤ r.w ∧ 1 ≤ r.h :=
  ⟨⟨by decide, by decide, by decide, by decide, by decide, by decide, by decide, by decide,
    by decide, by decide⟩,
    horizontal_layout_totality_amended ⟨0, 0, 100, 100⟩ [1, 1] 1 1 (by decide) (by decide)
      (by decide) (by decide) (by decide) (by decide) (by decide) (by decide) (by decide)
      (by decide)⟩

/-- C3 as amended: with no fullscreen mark and a non-empty client list, the
repair routine update_focus keeps a focus that is absent or refers to an
existing client (mapped or not); only a focus referring to no existing client
is repaired, to the first mapped client in insertion order, or to none when no
client is mapped. -/
theorem update_focus_repair_policy (ws : Workspace)
    (hfs : ws.fullscreen = none) (hne : ws.clients ≠ []) :
    ((∀ w, ws.focus = some w → ws.contains_key w = true) →
      ws.update_focus.focus = ws.focus) ∧
    ((∃ w, ws.focus = some w ∧ ws.contains_key w = false) →
      ws.update_focus.focus = (ws.clients.find? Client.is_mapped).map Client.window) := by
  have hempty : ws.clients.isEmpty = false := by
    cases h : ws.clients with
    | nil => exact absurd h hne
    | cons a l => rfl
  constructor
  · intro hval
    cases hf : ws.focus with
    | none =>
      simp [Workspace.update_focus, hfs, hempty, Workspace.is_focus_valid, hf]
    | some w =>
      have hc := hval w hf
      simp [Workspace.update_focus, hfs, hempty, Workspace.is_focus_valid, hf, hc]
  · rintro ⟨w, hw, hcont⟩
    simp [Workspace.update_focus, hfs, hempty, Workspace.is_focus_valid, hw, hcont]

/-- Witness for update_focus_repair_policy on a workspace whose focus dangles. -/
theorem update_focus_repair_policy_witness :
    (c3WitWs.fullscreen = none ∧ c3WitWs.clients ≠ []) ∧
      (((∀ w, c3WitWs.focus = some w → c3WitWs.contains_key w = true) →
          c3WitWs.update_focus.focus = c3WitWs.focus) ∧
        ((∃ w, c3WitWs.focus = some w ∧ c3WitWs.contains_key w = false) →
          c3WitWs.update_focus.focus =
            (c3WitWs.clients.find? Client.is_mapped).map Client.window)) :=
  ⟨⟨rfl, by decide⟩, update_focus_repair_policy c3WitWs rfl (by decide)⟩

/-- A mapped window is a key of the client map. -/
theorem contains_key_of_mapped (ws : Workspace) (w : Nat)
    (h : ws.is_window_mapped w = true) : ws.contains_key w = true := by
  unfold Workspace.is_window_mapped at h
  cases hg : ws.get_client w with
  | none => rw [hg] at h; cases h
  | some c =>
    have hmem := List.mem_of_find?_eq_some hg
    have hpred := List.find?_some hg
    exact List.any_eq_true.2 ⟨c, hmem, hpred⟩

/-- A workspace containing a key has a non-empty client list. -/
theorem clients_ne_nil_of_contains (ws : Workspace) (w : Nat)
    (h : ws.contains_key w = true) : ws.clients.isEmpty = false := by
  unfold Workspace.contains_key at h
  cases hc : ws.clients with
  | nil => rw [hc] at h; cases h
  | cons a l => rfl

/-- Element lookup after a set at the same position. -/
theorem get?_set_self {α : Type} :
    ∀ (l : List α) (i : Nat) (a : α), i < l.length → (l.set i a).get? i = some a := by
  intro l
  induction l with
  | nil =>
    intro i a h
    exact absurd h (Nat.not_lt_zero i)
  | cons b l ih =>
    intro i a h
    cases i with
    | zero => rfl
    | succ n => exact ih n a (Nat.lt_of_succ_lt_succ h)

/-- Element lookup after a set at a different position. -/
theorem get?_set_ne {α : Type} :
    ∀ (l : List α) (i j : Nat) (a : α), i ≠ j → (l.set i a).get? j = l.get? j := by
  intro l
  induction l with
  | nil => intro i j a _; rfl
  | cons b l ih =>
    intro i j a hne
    cases i with
    | zero =>
      cases j with
      | zero => exact absurd rfl hne
      | succ m => rfl
    | succ n =>
      cases j with
      | zero => rfl
      | succ m => exact ih n m a (fun hc => hne (by rw [hc]))

/-- The current workspace index is in range whenever the current workspace has
a focused window (the default fallback workspace has none). -/
theorem current_ws_in_range_of_focus (s : State) (w : Nat)
    (h : s.current_ws.focus = some w) : s.current_workspace < s.workspaces.length := by
  by_contra hc
  push_neg at hc
  unfold State.current_ws at h
  rw [List.get?_eq_none.2 hc] at h
  cases h

/-- Reading the current workspace back after a write. -/
theorem current_ws_set_eq (s : State) (ws : Workspace)
    (h : s.current_workspace < s.workspaces.length) :
    (s.setCurrentWs ws).current_ws = ws := by
  unfold State.setCurrentWs State.current_ws
  rw [get?_set_self s.workspaces s.current_workspace ws h]
  rfl

/-- Workspace::set_fullscreen on a mapped client sets the mark and glues focus
to the window. -/
theorem set_fullscreen_of_mapped (ws : Workspace) (w : Nat)
    (h : ws.is_window_mapped w = true) :
    ws.set_fullscreen w = { ws with fullscreen := some w, focus := some w } := by
  have hck : ws.contains_key w = true := contains_key_of_mapped ws w h
  have hck2 : Workspace.contains_key { ws with fullscreen := some w } w = true := hck
  have hm2 : Workspace.is_window_mapped { ws with fullscreen := some w } w = true := h
  have hemp : ({ ws with fullscreen := some w } : Workspace).clients.isEmpty = false :=
    clients_ne_nil_of_contains _ w hck2
  have hck3 : Workspace.contains_key
      { ws with fullscreen := some w, focus := some w } w = true := hck
  unfold Workspace.set_fullscreen
  rw [hck]
  simp [Workspace.update_focus, Workspace.set_focus, hck2, hm2, hemp,
    Workspace.is_focus_valid, hck3]

/-- Configure_windows short-circuits to the whole-screen Configure and Raise
when the inspected workspace has a mapped fullscreen window. -/
theorem configure_windows_fullscreen_mapped (s : State) (i : Nat) (ws : Workspace) (f : Nat)
    (hget : s.get_workspace i = some ws) (hfs : ws.fullscreen = some f)
    (hm : ws.is_window_mapped f = true) :
    s.configure_windows i =
      some [Effect.configure f 0 0 s.screen.width s.screen.height 0, Effect.raise f] := by
  unfold State.configure_windows
  rw [hget]
  simp [hfs, hm]

/-- State::set_focus is a no-op while the current workspace has a mapped
fullscreen window. -/
theorem set_focus_fullscreen_mapped (s : State) (w f : Nat)
    (hfs : s.current_ws.fullscreen = some f) (hm : s.current_ws.is_window_mapped f = true) :
    s.set_focus w = (s, []) := by
  unfold State.set_focus
  simp [hfs, hm]

/-- C2 as amended: toggling fullscreen on from a workspace with no fullscreen
mark and a mapped focused window w emits exactly Raise(w), the whole-screen
border-0 Configure of w and a second Raise(w), emits no Focus effect (set_focus
is a no-op once the mapped fullscreen mark is set), and leaves the post-state
with fullscreen = Some(w) and focus = Some(w). -/
theorem toggle_fullscreen_on_effects (s : State) (w : Nat)
    (hfs : s.current_ws.fullscreen = none)
    (hfoc : s.current_ws.focus = some w)
    (hm : s.current_ws.is_window_mapped w = true)
    (hcount : 2 ≤ (s.current_ws.clients.filter Client.is_mapped).length) :
    ∃ s1,
      s.toggle_fullscreen = some (s1,
          [Effect.raise w, Effect.configure w 0 0 s.screen.width s.screen.height 0,
            Effect.raise w]) ∧
        Effect.focus w ∉ ([Effect.raise w,
            Effect.configure w 0 0 s.screen.width s.screen.height 0,
            Effect.raise w] : List Effect) ∧
        s1.current_ws.fullscreen = some w ∧ s1.current_ws.focus = some w := by
  have hrange := current_ws_in_range_of_focus s w hfoc
  have hsetfs := set_fullscreen_of_mapped s.current_ws w hm
  have hcws : (s.setCurrentWs
        { clients := s.current_ws.clients, focus := some w, fullscreen := some w }).current_ws
      = { clients := s.current_ws.clients, focus := some w, fullscreen := some w } :=
    current_ws_set_eq s _ hrange
  have hm2 : Workspace.is_window_mapped
      { clients := s.current_ws.clients, focus := some w, fullscreen := some w } w = true := hm
  have hget : (s.setCurrentWs
        { clients := s.current_ws.clients, focus := some w, fullscreen := some w }).get_workspace
        s.current_workspace
      = some { clients := s.current_ws.clients, focus := some w, fullscreen := some w } := by
    unfold State.setCurrentWs State.get_workspace
    exact get?_set_self s.workspaces s.current_workspace _ hrange
  have hcur : (s.setCurrentWs
        { clients := s.current_ws.clients, focus := some w, fullscreen := some w }).current_workspace
      = s.current_workspace := rfl
  have hscreen : (s.setCurrentWs
        { clients := s.current_ws.clients, focus := some w, fullscreen := some w }).screen
      = s.screen := rfl
  have hcfg := configure_windows_fullscreen_mapped
    (s.setCurrentWs { clients := s.current_ws.clients, focus := some w, fullscreen := some w })
    s.current_workspace
    { clients := s.current_ws.clients, focus := some w, fullscreen := some w } w hget rfl hm2
  rw [hscreen] at hcfg
  have hsf := set_focus_fullscreen_mapped
    (s.setCurrentWs { clients := s.current_ws.clients, focus := some w, fullscreen := some w })
    w w (by rw [hcws]) (by rw [hcws]; exact hm2)
  refine ⟨s.setCurrentWs
    { clients := s.current_ws.clients, focus := some w, fullscreen := some w },
    ?_, ?_, ?_, ?_⟩
  · unfold State.toggle_fullscreen
    rw [hfoc]
    simp only [hfs, hsetfs]
    simp [hcur, hcfg, hsf]
  · simp
  · rw [hcws]
  · rw [hcws]

/-- Witness for toggle_fullscreen_on_effects on a workspace with two mapped
clients and focus on window 1. -/
theorem toggle_fullscreen_on_effects_witness :
    (c2State.current_ws.fullscreen = none ∧ c2State.current_ws.focus = some 1 ∧
      c2State.current_ws.is_window_mapped 1 = true ∧
      2 ≤ (c2State.current_ws.clients.filter Client.is_mapped).length) ∧
    ∃ s1,
      c2State.toggle_fullscreen = some (s1,
          [Effect.raise 1,
            Effect.configure 1 0 0 c2State.screen.width c2State.screen.height 0,
            Effect.raise 1]) ∧
        Effect.focus 1 ∉ ([Effect.raise 1,
            Effect.configure 1 0 0 c2State.screen.width c2State.screen.height 0,
            Effect.raise 1] : List Effect) ∧
        s1.current_ws.fullscreen = some 1 ∧ s1.current_ws.focus = some 1 :=
  ⟨⟨by decide, by decide, by decide, by decide⟩,
    toggle_fullscreen_on_effects c2State 1 (by decide) (by decide) (by decide) (by decide)⟩

/-- Lookup of the updated key after updateClient, when the update preserves
the window field. -/
theorem find?_updateClient_self (cs : List Client) (w : Nat) (g : Client → Client) (c : Client)
    (hg : ∀ x, (g x).window = x.window)
    (h : cs.find? (fun x => x.window = w) = some c) :
    (updateClient cs w g).find? (fun x => x.window = w) = some (g c) := by
  induction cs with
  | nil => cases h
  | cons a rest ih =>
    by_cases ha : a.window = w
    · have hc : c = a := by
        rw [List.find?_cons_of_pos _ (by simpa using ha)] at h
        exact (Option.some_inj.1 h).symm
      subst hc
      unfold updateClient
      rw [if_pos ha]
      exact List.find?_cons_of_pos _ (by simp [hg c, ha])
    · rw [List.find?_cons_of_neg _ (by simpa using ha)] at h
      unfold updateClient
      rw [if_neg ha]
      rw [List.find?_cons_of_neg _ (by simpa using ha)]
      exact ih h

/-- Lookup of a different key is unaffected by updateClient, when the update
preserves the window field. -/
theorem find?_updateClient_ne (cs : List Client) (w x : Nat) (g : Client → Client)
    (hne : x ≠ w) (hg : ∀ c, (g c).window = c.window) :
    (updateClient cs w g).find? (fun c => c.window = x) = cs.find? (fun c => c.window = x) := by
  induction cs with
  | nil => rfl
  | cons a rest ih =>
    by_cases ha : a.window = w
    · unfold updateClient
      rw [if_pos ha]
      have hax : ¬ a.window = x := by rw [ha]; exact fun hc => hne hc.symm
      have hgax : ¬ (g a).window = x := by rw [hg a]; exact hax
      rw [List.find?_cons_of_neg _ (by simpa using hgax),
        List.find?_cons_of_neg _ (by simpa using hax)]
    · unfold updateClient
      rw [if_neg ha]
      by_cases hax : a.window = x
      · rw [List.find?_cons_of_pos _ (by simpa using hax),
          List.find?_cons_of_pos _ (by simpa using hax)]
      · rw [List.find?_cons_of_neg _ (by simpa using hax),
          List.find?_cons_of_neg _ (by simpa using hax)]
        exact ih

/-- A window with a client entry is a key of the client map. -/
theorem contains_key_of_get_client (ws : Workspace) (w : Nat) (c : Client)
    (h : ws.get_client w = some c) : ws.contains_key w = true := by
  have hmem := List.mem_of_find?_eq_some h
  have hpred := List.find?_some h
  exact List.any_eq_true.2 ⟨c, hmem, hpred⟩

/-- The mapped flag of a window is read off its client entry. -/
theorem is_window_mapped_of_get_client (ws : Workspace) (w : Nat) (c : Client)
    (h : ws.get_client w = some c) : ws.is_window_mapped w = c.is_mapped := by
  unfold Workspace.is_window_mapped
  rw [h]

/-- A mapped window has a client entry whose mapped flag is true. -/
theorem get_client_of_mapped (ws : Workspace) (w : Nat)
    (h : ws.is_window_mapped w = true) :
    ∃ c, ws.get_client w = some c ∧ c.is_mapped = true := by
  unfold Workspace.is_window_mapped at h
  cases hg : ws.get_client w with
  | none => rw [hg] at h; cases h
  | some c =>
    rw [hg] at h
    exact ⟨c, rfl, h⟩

/-- Workspace::push_window of a fresh window, on a workspace whose mapped
fullscreen window holds the focus, appends the new client and keeps focus and
fullscreen glued to the fullscreen window. -/
theorem push_window_with_fullscreen (ws : Workspace) (f wprime : Nat)
    (hfs : ws.fullscreen = some f) (hm : ws.is_window_mapped f = true)
    (hfoc : ws.focus = some f) (habs : ws.get_client wprime = none) :
    ws.push_window wprime =
      { clients := ws.clients ++ [Client.new wprime], focus := some f,
        fullscreen := some f } := by
  obtain ⟨c, hc, hcm⟩ := get_client_of_mapped ws f hm
  have hcfind : ws.clients.find? (fun x => x.window = f) = some c := hc
  have habsfind : ws.clients.find? (fun x => x.window = wprime) = none := habs
  have hany : (ws.clients.any fun x => x.window = wprime) = false := by
    rw [List.any_eq_false]
    intro x hx
    have h2 := List.find?_eq_none.1 habsfind x hx
    simpa using h2
  have hfind2 : (ws.clients ++ [Client.new wprime]).find? (fun x => x.window = f) = some c := by
    rw [List.find?_append, hcfind]
    rfl
  have hcont2 : ((ws.clients ++ [Client.new wprime]).any fun x => x.window = f) = true := by
    rw [List.any_append]
    have hmemc := List.mem_of_find?_eq_some hcfind
    have hpredc := List.find?_some hcfind
    have h1 : (ws.clients.any fun x => x.window = f) = true :=
      List.any_eq_true.2 ⟨c, hmemc, hpredc⟩
    rw [h1]
    rfl
  have hne2 : (ws.clients ++ [Client.new wprime]).isEmpty = false := by simp
  have hany2 : (ws.clients.any fun x => x.window = (Client.new wprime).window) = false := hany
  have e1 : indexMapInsert ws.clients (Client.new wprime) = ws.clients ++ [Client.new wprime] := by
    unfold indexMapInsert
    rw [hany2]
    simp
  have hgc2 : Workspace.get_client
      { clients := ws.clients ++ [Client.new wprime], focus := some f,
        fullscreen := some f } f = some c := hfind2
  have hm2 : Workspace.is_window_mapped
      { clients := ws.clients ++ [Client.new wprime], focus := some f,
        fullscreen := some f } f = true := by
    rw [is_window_mapped_of_get_client _ f c hgc2]
    exact hcm
  have hck : Workspace.contains_key
      { clients := ws.clients ++ [Client.new wprime], focus := some f,
        fullscreen := some f } f = true := hcont2
  have e4 : Workspace.set_focus
      { clients := ws.clients ++ [Client.new wprime], focus := some f, fullscreen := some f } f
      = ({ clients := ws.clients ++ [Client.new wprime], focus := some f, fullscreen := some f }, true) := by
    unfold Workspace.set_focus
    rw [hck, hm2]
    simp
  have e5 : Workspace.update_focus
      { clients := ws.clients ++ [Client.new wprime], focus := some f, fullscreen := some f }
      = { clients := ws.clients ++ [Client.new wprime], focus := some f,
          fullscreen := some f } := by
    unfold Workspace.update_focus
    simp only [e4]
    simp [Workspace.is_focus_valid, hck, hne2]
  unfold Workspace.push_window
  simp only [e1, hfoc, hfs, Option.isNone_some, Bool.false_eq_true, if_false]
  exact e5

/-- Writing the reverse index leaves the current workspace unchanged. -/
theorem current_ws_wtw (st : State) (m : List (Nat × Nat)) :
    ({ st with window_to_workspace := m }).current_ws = st.current_ws := rfl

/-- Writing the reverse index leaves workspace lookup unchanged. -/
theorem get_workspace_wtw (st : State) (m : List (Nat × Nat)) (i : Nat) :
    ({ st with window_to_workspace := m }).get_workspace i = st.get_workspace i := rfl

/-- Writing the reverse index leaves configure_windows unchanged. -/
theorem configure_windows_wtw (st : State) (m : List (Nat × Nat)) (i : Nat) :
    ({ st with window_to_workspace := m }).configure_windows i = st.configure_windows i := by
  unfold State.configure_windows State.tiling_effects State.get_workspace
    State.usable_screen_height
  rfl

/-- C7: a MapRequest for a managed window while the current workspace has a
mapped fullscreen window emits Map plus the fullscreen relayout only, never a
Focus effect; the fullscreen window keeps the focus, and the new window is
tracked in the current workspace and marked mapped. -/
theorem map_request_no_focus_steal (s : State) (f wprime : Nat)
    (hfs : s.current_ws.fullscreen = some f)
    (hm : s.current_ws.is_window_mapped f = true)
    (hfoc : s.current_ws.focus = some f)
    (hne : wprime ≠ f) :
    ∃ s1,
      s.on_map_request wprime WindowType.Managed = some (s1,
          [Effect.map wprime, Effect.configure f 0 0 s.screen.width s.screen.height 0,
            Effect.raise f]) ∧
        (∀ v, Effect.focus v ∉ ([Effect.map wprime,
            Effect.configure f 0 0 s.screen.width s.screen.height 0,
            Effect.raise f] : List Effect)) ∧
        s1.current_ws.focus = some f ∧
        s1.current_ws.contains_key wprime = true ∧
        s1.current_ws.is_window_mapped wprime = true := by
  have hrange := current_ws_in_range_of_focus s f hfoc
  obtain ⟨cf, hcf, hcfm⟩ := get_client_of_mapped s.current_ws f hm
  have hcffind : s.current_ws.clients.find? (fun x => x.window = f) = some cf := hcf
  unfold State.on_map_request State.handle_map_request_managed
  cases hgc : s.current_ws.get_client wprime with
  | some c =>
    have hg : ∀ x : Client, ((fun y : Client => { y with is_mapped := true }) x).window = x.window :=
      fun x => rfl
    have hfne : f ≠ wprime := fun hc => hne hc.symm
    have hfindA : (updateClient s.current_ws.clients wprime (fun y : Client => { y with is_mapped := true })).find? (fun x => x.window = f)
        = s.current_ws.clients.find? (fun x => x.window = f) :=
      find?_updateClient_ne s.current_ws.clients wprime f _ hfne hg
    have hgcfind : s.current_ws.clients.find? (fun x => x.window = wprime) = some c := hgc
    have hfindA2 : (updateClient s.current_ws.clients wprime (fun y : Client => { y with is_mapped := true })).find? (fun x => x.window = wprime)
        = some { c with is_mapped := true } :=
      find?_updateClient_self s.current_ws.clients wprime _ c hg hgcfind
    have hgcA : Workspace.get_client { clients := updateClient s.current_ws.clients wprime (fun y : Client => { y with is_mapped := true }), focus := s.current_ws.focus, fullscreen := some f } f = some cf :=
      hfindA.trans hcffind
    have hgcA2 : Workspace.get_client { clients := updateClient s.current_ws.clients wprime (fun y : Client => { y with is_mapped := true }), focus := s.current_ws.focus, fullscreen := some f } wprime
        = some { c with is_mapped := true } := hfindA2
    have hmA : Workspace.is_window_mapped { clients := updateClient s.current_ws.clients wprime (fun y : Client => { y with is_mapped := true }), focus := s.current_ws.focus, fullscreen := some f } f = true := by
      rw [is_window_mapped_of_get_client _ f cf hgcA]
      exact hcfm
    have hcwsA : (s.setCurrentWs { clients := updateClient s.current_ws.clients wprime (fun y : Client => { y with is_mapped := true }), focus := s.current_ws.focus, fullscreen := some f }).current_ws = { clients := updateClient s.current_ws.clients wprime (fun y : Client => { y with is_mapped := true }), focus := s.current_ws.focus, fullscreen := some f } :=
      current_ws_set_eq s _ hrange
    have hgetA : (s.setCurrentWs { clients := updateClient s.current_ws.clients wprime (fun y : Client => { y with is_mapped := true }), focus := s.current_ws.focus, fullscreen := some f }).get_workspace s.current_workspace
        = some { clients := updateClient s.current_ws.clients wprime (fun y : Client => { y with is_mapped := true }), focus := s.current_ws.focus, fullscreen := some f } := by
      unfold State.setCurrentWs State.get_workspace
      exact get?_set_self s.workspaces s.current_workspace _ hrange
    have hcurA : (s.setCurrentWs { clients := updateClient s.current_ws.clients wprime (fun y : Client => { y with is_mapped := true }), focus := s.current_ws.focus, fullscreen := some f }).current_workspace = s.current_workspace := rfl
    have hscreenA : (s.setCurrentWs { clients := updateClient s.current_ws.clients wprime (fun y : Client => { y with is_mapped := true }), focus := s.current_ws.focus, fullscreen := some f }).screen = s.screen := rfl
    have hcfgA := configure_windows_fullscreen_mapped (s.setCurrentWs { clients := updateClient s.current_ws.clients wprime (fun y : Client => { y with is_mapped := true }), focus := s.current_ws.focus, fullscreen := some f })
      s.current_workspace { clients := updateClient s.current_ws.clients wprime (fun y : Client => { y with is_mapped := true }), focus := s.current_ws.focus, fullscreen := some f } f hgetA rfl hmA
    rw [hscreenA] at hcfgA
    refine ⟨s.setCurrentWs { clients := updateClient s.current_ws.clients wprime (fun y : Client => { y with is_mapped := true }), focus := s.current_ws.focus, fullscreen := some f }, ?_, ?_, ?_, ?_, ?_⟩
    · simp only [hfs]
      simp [hcwsA, hmA, hcurA, hcfgA]
    · intro v
      simp
    · rw [hcwsA]
      exact hfoc
    · rw [hcwsA]
      exact contains_key_of_get_client _ wprime _ hgcA2
    · rw [hcwsA]
      rw [is_window_mapped_of_get_client _ wprime _ hgcA2]
  | none =>
    have hpush := push_window_with_fullscreen s.current_ws f wprime hfs hm hfoc hgc
    have hfindB : (s.current_ws.clients ++ [Client.new wprime]).find? (fun x => x.window = f)
        = some cf := by
      rw [List.find?_append, hcffind]
      rfl
    have habsfind : s.current_ws.clients.find? (fun x => x.window = wprime) = none := hgc
    have hfindB2 : (s.current_ws.clients ++ [Client.new wprime]).find? (fun x => x.window = wprime)
        = some (Client.new wprime) := by
      rw [List.find?_append, habsfind]
      simp [Client.new]
    have hgcB : Workspace.get_client { clients := s.current_ws.clients ++ [Client.new wprime], focus := some f, fullscreen := some f } f = some cf := hfindB
    have hgcB2 : Workspace.get_client { clients := s.current_ws.clients ++ [Client.new wprime], focus := some f, fullscreen := some f } wprime = some (Client.new wprime) := hfindB2
    have hmB : Workspace.is_window_mapped { clients := s.current_ws.clients ++ [Client.new wprime], focus := some f, fullscreen := some f } f = true := by
      rw [is_window_mapped_of_get_client _ f cf hgcB]
      exact hcfm
    have hcwsB : (s.setCurrentWs { clients := s.current_ws.clients ++ [Client.new wprime], focus := some f, fullscreen := some f }).current_ws = { clients := s.current_ws.clients ++ [Client.new wprime], focus := some f, fullscreen := some f } :=
      current_ws_set_eq s _ hrange
    have hgetB : (s.setCurrentWs { clients := s.current_ws.clients ++ [Client.new wprime], focus := some f, fullscreen := some f }).get_workspace s.current_workspace = some { clients := s.current_ws.clients ++ [Client.new wprime], focus := some f, fullscreen := some f } := by
      unfold State.setCurrentWs State.get_workspace
      exact get?_set_self s.workspaces s.current_workspace _ hrange
    have hscreenB : (s.setCurrentWs { clients := s.current_ws.clients ++ [Client.new wprime], focus := some f, fullscreen := some f }).screen = s.screen := rfl
    have hcfgB := configure_windows_fullscreen_mapped (s.setCurrentWs { clients := s.current_ws.clients ++ [Client.new wprime], focus := some f, fullscreen := some f })
      s.current_workspace { clients := s.current_ws.clients ++ [Client.new wprime], focus := some f, fullscreen := some f } f hgetB rfl hmB
    rw [hscreenB] at hcfgB
    have hS1cw : ({ current_layout := (s.setCurrentWs { clients := s.current_ws.clients ++ [Client.new wprime], focus := some f, fullscreen := some f }).current_layout, workspaces := (s.setCurrentWs { clients := s.current_ws.clients ++ [Client.new wprime], focus := some f, fullscreen := some f }).workspaces, window_to_workspace := hashInsert (s.setCurrentWs { clients := s.current_ws.clients ++ [Client.new wprime], focus := some f, fullscreen := some f }).window_to_workspace wprime (s.setCurrentWs { clients := s.current_ws.clients ++ [Client.new wprime], focus := some f, fullscreen := some f }).current_workspace, current_workspace := (s.setCurrentWs { clients := s.current_ws.clients ++ [Client.new wprime], focus := some f, fullscreen := some f }).current_workspace, screen := (s.setCurrentWs { clients := s.current_ws.clients ++ [Client.new wprime], focus := some f, fullscreen := some f }).screen, border_width := (s.setCurrentWs { clients := s.current_ws.clients ++ [Client.new wprime], focus := some f, fullscreen := some f }).border_width, window_gap := (s.setCurrentWs { clients := s.current_ws.clients ++ [Client.new wprime], focus := some f, fullscreen := some f }).window_gap, dock_windows := (s.setCurrentWs { clients := s.current_ws.clients ++ [Client.new wprime], focus := some f, fullscreen := some f }).dock_windows, dock_height := (s.setCurrentWs { clients := s.current_ws.clients ++ [Client.new wprime], focus := some f, fullscreen := some f }).dock_height } : State).current_ws = { clients := s.current_ws.clients ++ [Client.new wprime], focus := some f, fullscreen := some f } := hcwsB
    have hS1cur : ({ current_layout := (s.setCurrentWs { clients := s.current_ws.clients ++ [Client.new wprime], focus := some f, fullscreen := some f }).current_layout, workspaces := (s.setCurrentWs { clients := s.current_ws.clients ++ [Client.new wprime], focus := some f, fullscreen := some f }).workspaces, window_to_workspace := hashInsert (s.setCurrentWs { clients := s.current_ws.clients ++ [Client.new wprime], focus := some f, fullscreen := some f }).window_to_workspace wprime (s.setCurrentWs { clients := s.current_ws.clients ++ [Client.new wprime], focus := some f, fullscreen := some f }).current_workspace, current_workspace := (s.setCurrentWs { clients := s.current_ws.clients ++ [Client.new wprime], focus := some f, fullscreen := some f }).current_workspace, screen := (s.setCurrentWs { clients := s.current_ws.clients ++ [Client.new wprime], focus := some f, fullscreen := some f }).screen, border_width := (s.setCurrentWs { clients := s.current_ws.clients ++ [Client.new wprime], focus := some f, fullscreen := some f }).border_width, window_gap := (s.setCurrentWs { clients := s.current_ws.clients ++ [Client.new wprime], focus := some f, fullscreen := some f }).window_gap, dock_windows := (s.setCurrentWs { clients := s.current_ws.clients ++ [Client.new wprime], focus := some f, fullscreen := some f }).dock_windows, dock_height := (s.setCurrentWs { clients := s.current_ws.clients ++ [Client.new wprime], focus := some f, fullscreen := some f }).dock_height } : State).current_workspace = s.current_workspace := rfl
    have hS1cfg : ({ current_layout := (s.setCurrentWs { clients := s.current_ws.clients ++ [Client.new wprime], focus := some f, fullscreen := some f }).current_layout, workspaces := (s.setCurrentWs { clients := s.current_ws.clients ++ [Client.new wprime], focus := some f, fullscreen := some f }).workspaces, window_to_workspace := hashInsert (s.setCurrentWs { clients := s.current_ws.clients ++ [Client.new wprime], focus := some f, fullscreen := some f }).window_to_workspace wprime (s.setCurrentWs { clients := s.current_ws.clients ++ [Client.new wprime], focus := some f, fullscreen := some f }).current_workspace, current_workspace := (s.setCurrentWs { clients := s.current_ws.clients ++ [Client.new wprime], focus := some f, fullscreen := some f }).current_workspace, screen := (s.setCurrentWs { clients := s.current_ws.clients ++ [Client.new wprime], focus := some f, fullscreen := some f }).screen, border_width := (s.setCurrentWs { clients := s.current_ws.clients ++ [Client.new wprime], focus := some f, fullscreen := some f }).border_width, window_gap := (s.setCurrentWs { clients := s.current_ws.clients ++ [Client.new wprime], focus := some f, fullscreen := some f }).window_gap, dock_windows := (s.setCurrentWs { clients := s.current_ws.clients ++ [Client.new wprime], focus := some f, fullscreen := some f }).dock_windows, dock_height := (s.setCurrentWs { clients := s.current_ws.clients ++ [Client.new wprime], focus := some f, fullscreen := some f }).dock_height } : State).configure_windows (s.setCurrentWs { clients := s.current_ws.clients ++ [Client.new wprime], focus := some f, fullscreen := some f }).current_workspace
        = some [Effect.configure f 0 0 s.screen.width s.screen.height 0, Effect.raise f] := by
      rw [configure_windows_wtw]
      exact hcfgB
    refine ⟨{ (s.setCurrentWs { clients := s.current_ws.clients ++ [Client.new wprime], focus := some f, fullscreen := some f }) with window_to_workspace := hashInsert (s.setCurrentWs { clients := s.current_ws.clients ++ [Client.new wprime], focus := some f, fullscreen := some f }).window_to_workspace wprime (s.setCurrentWs { clients := s.current_ws.clients ++ [Client.new wprime], focus := some f, fullscreen := some f }).current_workspace }, ?_, ?_, ?_, ?_, ?_⟩
    · simp [hpush, hS1cw, hmB, hS1cur, hS1cfg]
    · intro v
      simp
    · rw [hS1cw]
    · rw [hS1cw]
      exact contains_key_of_get_client _ wprime _ hgcB2
    · rw [hS1cw]
      rw [is_window_mapped_of_get_client _ wprime _ hgcB2]
      rfl

/-- Witness for map_request_no_focus_steal: workspace 0 with window 1 mapped,
focused and fullscreen receives a MapRequest for window 2. -/
theorem map_request_no_focus_steal_witness :
    (c7State.current_ws.fullscreen = some 1 ∧ c7State.current_ws.is_window_mapped 1 = true ∧
      c7State.current_ws.focus = some 1 ∧ (2 : Nat) ≠ 1) ∧
    ∃ s1,
      c7State.on_map_request 2 WindowType.Managed = some (s1,
          [Effect.map 2, Effect.configure 1 0 0 c7State.screen.width c7State.screen.height 0,
            Effect.raise 1]) ∧
        (∀ v, Effect.focus v ∉ ([Effect.map 2,
            Effect.configure 1 0 0 c7State.screen.width c7State.screen.height 0,
            Effect.raise 1] : List Effect)) ∧
        s1.current_ws.focus = some 1 ∧
        s1.current_ws.contains_key 2 = true ∧
        s1.current_ws.is_window_mapped 2 = true :=
  ⟨⟨by decide, by decide, by decide, by decide⟩,
    map_request_no_focus_steal c7State 1 2 (by decide) (by decide) (by decide) (by decide)⟩

/-- The tiling branch of configure_windows only emits Configure effects. -/
theorem tiling_effects_only_configure (s : State) (ws : Workspace) (effs : List Effect)
    (h : s.tiling_effects ws = some effs) :
    ∀ e ∈ effs, e.is_map_effect = false ∧ e.is_unmap_effect = false := by
  unfold State.tiling_effects at h
  by_cases hemp : (ws.clients.filter Client.is_mapped).isEmpty = true
  · rw [if_pos hemp] at h
    cases h
    intro e he
    exact absurd he (List.not_mem_nil e)
  · rw [if_neg hemp] at h
    obtain ⟨layout, hl, h2⟩ := Option.bind_eq_some.1 h
    cases h2
    intro e he
    obtain ⟨q, hq, hqe⟩ := List.mem_map.1 he
    rw [← hqe]
    exact ⟨rfl, rfl⟩

/-- Configure_windows only emits Configure and Raise effects; in particular
never a Map or an Unmap. -/
theorem configure_windows_no_map_unmap (s : State) (i : Nat) (effs : List Effect)
    (h : s.configure_windows i = some effs) :
    ∀ e ∈ effs, e.is_map_effect = false ∧ e.is_unmap_effect = false := by
  unfold State.configure_windows at h
  split at h
  · cases h
    intro e he
    exact absurd he (List.not_mem_nil e)
  · split at h
    · split at h
      · cases h
        intro e he
        rcases List.mem_cons.1 he with rfl | he2
        · exact ⟨rfl, rfl⟩
        · rcases List.mem_cons.1 he2 with rfl | he3
          · exact ⟨rfl, rfl⟩
          · exact absurd he3 (List.not_mem_nil e)
      · exact tiling_effects_only_configure _ _ _ h
    · exact tiling_effects_only_configure _ _ _ h

/-- State::set_focus only emits SetBorder, Focus and Raise effects. -/
theorem set_focus_no_map_unmap (s : State) (w : Nat) :
    ∀ e ∈ (s.set_focus w).2, e.is_map_effect = false ∧ e.is_unmap_effect = false := by
  intro e he
  unfold State.set_focus at he
  simp only [] at he
  split at he
  · exact absurd he (List.not_mem_nil e)
  · split at he
    · simp only [List.mem_append] at he
      rcases he with (h1 | h1) | h1
      · split at h1
        · simp only [List.mem_singleton] at h1
          subst h1
          exact ⟨rfl, rfl⟩
        · exact absurd h1 (List.not_mem_nil e)
      · rcases List.mem_cons.1 h1 with rfl | h2
        · exact ⟨rfl, rfl⟩
        · rcases List.mem_cons.1 h2 with rfl | h3
          · exact ⟨rfl, rfl⟩
          · exact absurd h3 (List.not_mem_nil e)
      · split at h1
        · simp only [List.mem_singleton] at h1
          subst h1
          exact ⟨rfl, rfl⟩
        · exact absurd h1 (List.not_mem_nil e)
    · exact absurd he (List.not_mem_nil e)

/-- The focus-reassertion block never emits a Map or an Unmap. -/
theorem reassert_focus_no_map_unmap (s : State) :
    ∀ e ∈ s.reassert_focus.2, e.is_map_effect = false ∧ e.is_unmap_effect = false := by
  unfold State.reassert_focus
  cases hf : s.current_ws.focus with
  | none =>
    intro e he
    exact absurd he (List.not_mem_nil e)
  | some focus => exact set_focus_no_map_unmap s focus

/-- Counting an Unmap effect among mapped Unmaps counts the window. -/
theorem count_unmap_in_unmaps (l : List Nat) (w : Nat) :
    (l.map Effect.unmap).count (Effect.unmap w) = l.count w := by
  induction l with
  | nil => rfl
  | cons a rest ih =>
    by_cases hh : a = w
    · simp [List.count_cons, ih, hh]
    · simp [List.count_cons, ih, hh]

/-- Counting a Map effect among mapped Maps counts the window. -/
theorem count_map_in_maps (l : List Nat) (w : Nat) :
    (l.map Effect.map).count (Effect.map w) = l.count w := by
  induction l with
  | nil => rfl
  | cons a rest ih =>
    by_cases hh : a = w
    · simp [List.count_cons, ih, hh]
    · simp [List.count_cons, ih, hh]

/-- No Unmap effect occurs among mapped Maps. -/
theorem count_unmap_in_maps (l : List Nat) (w : Nat) :
    (l.map Effect.map).count (Effect.unmap w) = 0 := by
  rw [List.count_eq_zero]
  intro hmem
  obtain ⟨x, hx, hex⟩ := List.mem_map.1 hmem
  cases hex

/-- No Map effect occurs among mapped Unmaps. -/
theorem count_map_in_unmaps (l : List Nat) (w : Nat) :
    (l.map Effect.unmap).count (Effect.map w) = 0 := by
  rw [List.count_eq_zero]
  intro hmem
  obtain ⟨x, hx, hex⟩ := List.mem_map.1 hmem
  cases hex

/-- A list without Unmap effects counts zero Unmaps. -/
theorem count_unmap_zero (l : List Effect) (w : Nat)
    (h : ∀ e ∈ l, e.is_unmap_effect = false) : l.count (Effect.unmap w) = 0 := by
  rw [List.count_eq_zero]
  intro hmem
  have h2 := h _ hmem
  cases h2

/-- A list without Map effects counts zero Maps. -/
theorem count_map_zero (l : List Effect) (w : Nat)
    (h : ∀ e ∈ l, e.is_map_effect = false) : l.count (Effect.map w) = 0 := by
  rw [List.count_eq_zero]
  intro hmem
  have h2 := h _ hmem
  cases h2

/-- In a concatenation whose left part has no Map effects and whose right part
has no Unmap effects, every Unmap position precedes every Map position. -/
theorem unmap_before_map_split (A B : List Effect)
    (hA : ∀ e ∈ A, e.is_map_effect = false)
    (hB : ∀ e ∈ B, e.is_unmap_effect = false) :
    ∀ j k (hj : j < (A ++ B).length) (hk : k < (A ++ B).length),
      ((A ++ B).get ⟨j, hj⟩).is_unmap_effect = true →
      ((A ++ B).get ⟨k, hk⟩).is_map_effect = true → j < k := by
  intro j k hj hk hje hke
  have hjA : j < A.length := by
    by_contra hc
    push_neg at hc
    have hmem : (A ++ B).get ⟨j, hj⟩ ∈ B := by
      rw [List.get_eq_getElem, List.getElem_append_right hc]
      exact List.getElem_mem _
    rw [hB _ hmem] at hje
    cases hje
  have hkA : A.length ≤ k := by
    by_contra hc
    push_neg at hc
    have hmem : (A ++ B).get ⟨k, hk⟩ ∈ A := by
      rw [List.get_eq_getElem, List.getElem_append_left hc]
      exact List.getElem_mem _
    rw [hA _ hmem] at hke
    cases hke
  omega

/-- Shape lemma for the go_to_workspace effect vector: unmapped old windows
first, mapped new windows second, then effects that are neither Map nor
Unmap. -/
theorem unmap_map_effects_shape (old new : List Nat) (cfg fe : List Effect)
    (hcfg : ∀ e ∈ cfg, e.is_map_effect = false ∧ e.is_unmap_effect = false)
    (hfe : ∀ e ∈ fe, e.is_map_effect = false ∧ e.is_unmap_effect = false)
    (hnd1 : old.Nodup) (hnd2 : new.Nodup) :
    (∀ w ∈ old,
      (old.map Effect.unmap ++ new.map Effect.map ++ cfg ++ fe).count (Effect.unmap w) = 1) ∧
    (∀ w ∈ new,
      (old.map Effect.unmap ++ new.map Effect.map ++ cfg ++ fe).count (Effect.map w) = 1) ∧
    (∀ j k (hj : j < (old.map Effect.unmap ++ new.map Effect.map ++ cfg ++ fe).length)
      (hk : k < (old.map Effect.unmap ++ new.map Effect.map ++ cfg ++ fe).length),
      ((old.map Effect.unmap ++ new.map Effect.map ++ cfg ++ fe).get
        ⟨j, hj⟩).is_unmap_effect = true →
      ((old.map Effect.unmap ++ new.map Effect.map ++ cfg ++ fe).get
        ⟨k, hk⟩).is_map_effect = true → j < k) := by
  refine ⟨?_, ?_, ?_⟩
  · intro w hw
    rw [List.count_append, List.count_append, List.count_append,
      count_unmap_in_unmaps, count_unmap_in_maps,
      count_unmap_zero cfg w (fun e he => (hcfg e he).2),
      count_unmap_zero fe w (fun e he => (hfe e he).2),
      List.count_eq_one_of_mem hnd1 hw]
  · intro w hw
    rw [List.count_append, List.count_append, List.count_append,
      count_map_in_unmaps, count_map_in_maps,
      count_map_zero cfg w (fun e he => (hcfg e he).1),
      count_map_zero fe w (fun e he => (hfe e he).1),
      List.count_eq_one_of_mem hnd2 hw]
  · have hassoc : old.map Effect.unmap ++ new.map Effect.map ++ cfg ++ fe
        = old.map Effect.unmap ++ (new.map Effect.map ++ (cfg ++ fe)) := by
      rw [List.append_assoc, List.append_assoc]
    rw [hassoc]
    refine unmap_before_map_split (old.map Effect.unmap) (new.map Effect.map ++ (cfg ++ fe))
      ?_ ?_
    · intro e he
      obtain ⟨x, hx, hex⟩ := List.mem_map.1 he
      rw [← hex]
      rfl
    · intro e he
      rcases List.mem_append.1 he with h1 | h1
      · obtain ⟨x, hx, hex⟩ := List.mem_map.1 h1
        rw [← hex]
        rfl
      · rcases List.mem_append.1 h1 with h2 | h2
        · exact (hcfg e h2).2
        · exact (hfe e h2).2

/-- C6: switching to a different, in-range workspace emits exactly one Unmap
per client of the outgoing workspace and exactly one Map per client of the
incoming workspace, and every Unmap position precedes every Map position in
the effect vector. -/
theorem go_to_workspace_unmap_map_effects (s : State) (i : Nat)
    (hlt : i < NUM_WORKSPACES) (hnei : i ≠ s.current_workspace)
    (hnd1 : s.current_ws.iter_windows.Nodup)
    (hnd2 : (((s.workspaces.get? i).getD Workspace.default).iter_windows).Nodup) :
    ∀ p, s.go_to_workspace i = some p →
      (∀ w ∈ s.current_ws.iter_windows, p.2.count (Effect.unmap w) = 1) ∧
      (∀ w ∈ ((s.workspaces.get? i).getD Workspace.default).iter_windows,
        p.2.count (Effect.map w) = 1) ∧
      (∀ j k (hj : j < p.2.length) (hk : k < p.2.length),
        (p.2.get ⟨j, hj⟩).is_unmap_effect = true →
        (p.2.get ⟨k, hk⟩).is_map_effect = true → j < k) := by
  intro p hp
  unfold State.go_to_workspace at hp
  have hcond : ¬ (s.current_workspace = i ∨ NUM_WORKSPACES ≤ i) := by
    push_neg
    exact ⟨fun hc => hnei hc.symm, by omega⟩
  rw [if_neg hcond] at hp
  simp only [State.current_ws, State.setCurrentWs] at hp
  have hsetget : ∀ ws2 : Workspace,
      (s.workspaces.set s.current_workspace ws2).get? i = s.workspaces.get? i :=
    fun ws2 => get?_set_ne s.workspaces s.current_workspace i ws2 (fun hc => hnei hc.symm)
  rw [hsetget] at hp
  obtain ⟨cfg, hcfg, hp2⟩ := Option.bind_eq_some.1 hp
  cases hp2
  exact unmap_map_effects_shape s.current_ws.iter_windows
    (((s.workspaces.get? i).getD Workspace.default).iter_windows) cfg _
    (configure_windows_no_map_unmap _ _ _ hcfg) (reassert_focus_no_map_unmap _) hnd1 hnd2

/-- Witness for go_to_workspace_unmap_map_effects: from workspace 0 holding
window 1 to workspace 1 holding window 2, and the call indeed returns an
effect vector. -/
theorem go_to_workspace_unmap_map_effects_witness :
    ((1 : Nat) < NUM_WORKSPACES ∧ (1 : Nat) ≠ c6State.current_workspace ∧
      c6State.current_ws.iter_windows.Nodup ∧
      (((c6State.workspaces.get? 1).getD Workspace.default).iter_windows).Nodup ∧
      (c6State.go_to_workspace 1).isSome = true) ∧
    (∀ p, c6State.go_to_workspace 1 = some p →
      (∀ w ∈ c6State.current_ws.iter_windows, p.2.count (Effect.unmap w) = 1) ∧
      (∀ w ∈ ((c6State.workspaces.get? 1).getD Workspace.default).iter_windows,
        p.2.count (Effect.map w) = 1) ∧
      (∀ j k (hj : j < p.2.length) (hk : k < p.2.length),
        (p.2.get ⟨j, hj⟩).is_unmap_effect = true →
        (p.2.get ⟨k, hk⟩).is_map_effect = true → j < k)) :=
  ⟨⟨by decide, by decide, by decide, by decide, by decide⟩,
    go_to_workspace_unmap_map_effects c6State 1 (by decide) (by decide) (by decide) (by decide)⟩
